import Mathlib

/-!
Verification of the Voice-to-Text tool (src/Whisper/whisper.py) against its
natural-language specification.

The development shallowly embeds the program:

* The key-event handlers (`on_key_press`, `on_key_release`), the recording
  guard (`start_recording`) and the recording thread `record_audio` are
  embedded as a labelled transition system `Sys.step` over the program's
  global state (`recording` flag, `currently_pressed_keys`, the shared
  `audio_data` buffer, and the set of spawned recorder threads).  Each label
  is one atomic action of one of the concurrently running contexts, at the
  granularity the Python interpreter guarantees (one bytecode-level critical
  step at a time); in particular the audio callback's `if recording:` test
  and its `audio_data.append(...)` are two separate atomic actions, which is
  exactly the interleaving freedom the real callback has.
* The sequential transcription pipeline (`process_audio`,
  `transcribe_audio`, `paste_text`) is embedded as pure functions over an
  environment that records the outcome of each external effect (file write,
  transcription service, clipboard, paste, file deletion), threading an
  explicit "pending exception" value so that every `try/except/finally` of
  the source is visible in the model.
* The bounded capture loop (`while recording and (time.time() - start_time)
  < MAX_RECORDING_SECONDS: time.sleep(0.1)`) is embedded as a tick-indexed
  loop (`loopAux`/`captureLoop`), one tick per 0.1 s sleep.
* The transient-file naming (`datetime.now().strftime("%Y%m%d_%H%M%S")`)
  is embedded over a calendar timestamp carrying the sub-second component
  that `datetime.now()` has and that the format string drops.
-/

/-! ### Keys, `is_v_key`, chord roles

`pynput` delivers either special keys (`keyboard.Key.cmd`, `cmd_l`, `cmd_r`,
`alt`, `alt_l`, `alt_r`, ...) or `KeyCode` values that may carry a one-glyph
`char` and/or a virtual-key number `vk`. -/

structure KeyCode where
  char : Option Char := none
  vk : Option Nat := none
deriving DecidableEq, Repr

inductive PKey where
  | cmd | cmd_l | cmd_r
  | alt | alt_l | alt_r
  | otherSpecial (n : Nat)
  | code (kc : KeyCode)
deriving DecidableEq, Repr

/-- Embedding of `is_v_key` (whisper.py lines 235-256).  The source also
compares `key.char` against two list entries that are three-character
mojibake strings (bytes `e2 80 9a c3 a0 c3 b6` and `e2 80 9a c3 b3 c3 a4`);
a `KeyCode.char` is a single glyph, so those two entries can never match and
only the `'v'`/`'V'` entries of that list are live.  The trailing
`key == keyboard.KeyCode.from_char('v')` comparisons are modelled as
equality with a `KeyCode` whose `char` is `'v'`/`'V'` and whose `vk` is
unset.  The source wraps everything in `try/except: pass`; no modelled
branch can raise, so the embedding is total. -/
def is_v_key (key : PKey) : Bool :=
  match key with
  | .code kc =>
      (match kc.char with
       | some c => c.toLower == 'v' || c == 'v' || c == 'V'
       | none => false)
      || (match kc.vk with
          | some n => n == 86
          | none => false)
      || kc == { char := some 'v' } || kc == { char := some 'V' }
  | _ => false

/-- `cmd_keys = [keyboard.Key.cmd, keyboard.Key.cmd_l, keyboard.Key.cmd_r]`. -/
def cmdKeys : List PKey := [.cmd, .cmd_l, .cmd_r]

/-- `alt_keys = [keyboard.Key.alt, keyboard.Key.alt_l, keyboard.Key.alt_r]`. -/
def altKeys : List PKey := [.alt, .alt_l, .alt_r]

/-- The three-way `if/elif/elif` chord test of `on_key_press` (lines
264-276), evaluated against `currently_pressed_keys` as it stands *before*
the pressed key is added (the source adds the key only after the test). -/
def chordEdge (pressed : List PKey) (k : PKey) : Bool :=
  (cmdKeys.contains k && pressed.any (fun x => altKeys.contains x)
      && pressed.any is_v_key)
  || (altKeys.contains k && pressed.any (fun x => cmdKeys.contains x)
      && pressed.any is_v_key)
  || (is_v_key k && pressed.any (fun x => cmdKeys.contains x)
      && pressed.any (fun x => altKeys.contains x))

/-! ### The concurrent system

Global state of the process: the `recording` flag, the
`currently_pressed_keys` set, the shared `audio_data` list (modelled by its
length `frames`), and one `ThreadSt` per spawned `record_audio` thread. -/

/-- Control position of one `record_audio` thread.

* `fresh` — spawned, has not yet executed `audio_data = []` / stream open;
* `looping` — stream open, inside the `while` loop;
* `closing` — loop exited, leaving the `with sd.InputStream(...)` block
  (the stream close waits for an in-flight callback of *this* stream);
* `postLoop` — stream closed (or open failed), about to run
  `if audio_data:`;
* `transcribing` — inside `process_audio`;
* `finished` — thread function returned. -/
inductive Phase where
  | fresh | looping | closing | postLoop | transcribing | finished
deriving DecidableEq, Repr

/-- One recorder thread: its control position plus `latch`, which is true
when this thread's stream callback has already evaluated `if recording:` to
true but has not yet executed `audio_data.append(...)`. -/
structure ThreadSt where
  phase : Phase
  latch : Bool := false
deriving DecidableEq, Repr

/-- Global state of the program. `observed` records the value of
`len(audio_data)` at the first `if audio_data:` drain-time observation by a
consumer, `none` while no consumer has looked yet.  `fires` counts how
often `start_recording` actually started a session. -/
structure Sys where
  recording : Bool := false
  pressed : List PKey := []
  fires : Nat := 0
  frames : Nat := 0
  observed : Option Nat := none
  threads : List ThreadSt := []
deriving DecidableEq, Repr

def Sys.init : Sys := {}

/-- `start_recording` (lines 305-314): starts a new recorder thread only if
the `recording` flag is currently clear. -/
def start_recording (s : Sys) : Sys :=
  if s.recording then s
  else { s with
          recording := true
          fires := s.fires + 1
          threads := s.threads ++ [{ phase := .fresh }] }

/-- `on_key_press` (lines 259-281): the chord test runs against the pressed
set *before* the key is inserted; the key is inserted afterwards.  The
`try/except: pass` wrapper is dead in the model (no branch raises). -/
def on_key_press (s : Sys) (k : PKey) : Sys :=
  let s1 := if chordEdge s.pressed k then start_recording s else s
  { s1 with pressed := s1.pressed.insert k }

/-- `currently_pressed_keys.remove(key)` guarded by `try/except KeyError:
pass` (lines 289-292): removing an absent key is a no-op instead of an
error. -/
def removeKey (l : List PKey) (k : PKey) : List PKey :=
  if k ∈ l then l.erase k else l

/-- `on_key_release` (lines 284-302): remove the key from the pressed set
(absent key swallowed), then clear the `recording` flag if any chord-role
key was released while recording. -/
def on_key_release (s : Sys) (k : PKey) : Sys :=
  let s1 := { s with pressed := removeKey s.pressed k }
  if s1.recording
      && (cmdKeys.contains k || altKeys.contains k || is_v_key k) then
    { s1 with recording := false }
  else s1

/-- Atomic actions of the concurrent program.  `press`/`release` run on the
key-listener thread; the remaining labels, indexed by recorder-thread
number, are the atomic steps of `record_audio` (lines 110-144) and of the
audio subsystem's callback for that thread's stream. -/
inductive Ev where
  | press (k : PKey)
  | release (k : PKey)
  /-- `audio_data = []` followed by `sd.InputStream(...)` entry; `ok` is
  whether opening the device succeeded.  On failure the exception is caught
  at line 137 and the thread falls through to the `if audio_data:` check. -/
  | openStream (i : Nat) (ok : Bool)
  /-- callback evaluates `if recording:` (line 120). -/
  | cbCheck (i : Nat)
  /-- callback executes `audio_data.append(indata.copy())` (line 121). -/
  | cbAppend (i : Nat)
  /-- loop iteration observes `recording == False` and exits (line 129). -/
  | loopCheck (i : Nat)
  /-- loop iteration observes `elapsed >= MAX_RECORDING_SECONDS` and exits
  (line 129); the `recording` flag is *not* cleared. -/
  | timeout (i : Nat)
  /-- leaving the `with` block: the stream close completes any in-flight
  callback of this stream, then no further callbacks of this stream run. -/
  | closeStream (i : Nat)
  /-- `if audio_data:` (line 140) — the consumer's first observation of the
  buffer; nonempty goes to `process_audio`, empty logs and returns. -/
  | drainCheck (i : Nat)
  /-- `process_audio` returns; the thread function ends. -/
  | finishTranscribe (i : Nat)
deriving DecidableEq, Repr

/-- One atomic step of the whole program.  Actions whose enabling condition
does not hold (wrong phase, absent thread) leave the state unchanged. -/
def Sys.step (s : Sys) : Ev → Sys
  | .press k => on_key_press s k
  | .release k => on_key_release s k
  | .openStream i ok =>
      match s.threads[i]? with
      | some t =>
          if t.phase = .fresh then
            { s with
                frames := 0
                threads := s.threads.set i
                  { t with phase := if ok then .looping else .postLoop } }
          else s
      | none => s
  | .cbCheck i =>
      match s.threads[i]? with
      | some t =>
          if (t.phase = .looping ∨ t.phase = .closing) ∧ s.recording then
            { s with threads := s.threads.set i { t with latch := true } }
          else s
      | none => s
  | .cbAppend i =>
      match s.threads[i]? with
      | some t =>
          if (t.phase = .looping ∨ t.phase = .closing) ∧ t.latch then
            { s with
                frames := s.frames + 1
                threads := s.threads.set i { t with latch := false } }
          else s
      | none => s
  | .loopCheck i =>
      match s.threads[i]? with
      | some t =>
          if t.phase = .looping ∧ s.recording = false then
            { s with threads := s.threads.set i { t with phase := .closing } }
          else s
      | none => s
  | .timeout i =>
      match s.threads[i]? with
      | some t =>
          if t.phase = .looping then
            { s with threads := s.threads.set i { t with phase := .closing } }
          else s
      | none => s
  | .closeStream i =>
      match s.threads[i]? with
      | some t =>
          if t.phase = .closing then
            { s with
                frames := s.frames + (if t.latch then 1 else 0)
                threads := s.threads.set i
                  { t with phase := .postLoop, latch := false } }
          else s
      | none => s
  | .drainCheck i =>
      match s.threads[i]? with
      | some t =>
          if t.phase = .postLoop then
            { s with
                observed := some (s.observed.getD s.frames)
                threads := s.threads.set i
                  { t with
                      phase := if s.frames > 0 then .transcribing
                               else .finished } }
          else s
      | none => s
  | .finishTranscribe i =>
      match s.threads[i]? with
      | some t =>
          if t.phase = .transcribing then
            { s with threads := s.threads.set i { t with phase := .finished } }
          else s
      | none => s

/-- Execute a sequence of atomic actions from the initial state. -/
def Sys.run (evs : List Ev) : Sys := evs.foldl Sys.step Sys.init

/-- All three chord roles (a command key, an option key and a `v`-key
representation) are concurrently held in the pressed set. -/
def rolesHeld (pressed : List PKey) : Bool :=
  pressed.any (fun x => cmdKeys.contains x)
    && pressed.any (fun x => altKeys.contains x)
    && pressed.any is_v_key

/-- The letter key as `pynput` would typically deliver it. -/
def vKey : PKey := .code { char := some 'v' }

/-- Interleaving refuting claim C1 as stated: hold ⌥ and `v`, press ⌘
(session 0 starts), capture one chunk, release ⌘ (the flag clears), the
loop exits, the stream closes, the drain check sends session 0 into
`process_audio` (transcription in flight), then press ⌘ again. -/
def c1Trace : List Ev :=
  [.press .alt_l, .press vKey, .press .cmd_l, .openStream 0 true,
   .cbCheck 0, .cbAppend 0, .release .cmd_l, .loopCheck 0, .closeStream 0,
   .drainCheck 0, .press .cmd_l, .openStream 1 true]

/-- Event sequence refuting claim C6 as stated: ⌥, `v`, ⌘-left (trigger
fires), ⌘-right pressed in addition, ⌘-left released (flag clears, but the
⌘ role is still held through ⌘-right), then an auto-repeat press of the
already-held ⌘-right. -/
def c6Trace : List Ev :=
  [.press .alt_l, .press vKey, .press .cmd_l, .press .cmd_r,
   .release .cmd_l, .press .cmd_r]

/-- Interleaving refuting claim C2: session 0 records one chunk; the chord
is released and immediately re-pressed, so `start_recording` (the flag is
clear again) spawns session 1, whose `record_audio` resets the *shared*
`audio_data` list and whose stream starts appending to it; session 1's
callback passes its `if recording:` test, the chord is released, session
0's loop exits, its stream closes, and its `if audio_data:` drain check
observes one frame and enters `process_audio` — after which session 1's
pending callback append lands in the same shared buffer. -/
def c2Trace : List Ev :=
  [.press .alt_l, .press vKey, .press .cmd_l, .openStream 0 true,
   .cbCheck 0, .cbAppend 0, .release .cmd_l, .press .cmd_l,
   .openStream 1 true, .cbCheck 1, .cbAppend 1, .cbCheck 1,
   .release .cmd_l, .loopCheck 0, .closeStream 0, .drainCheck 0,
   .cbAppend 1]

/-- Interleaving refuting the `Idle` part of claim C4: the chord is pressed
(session 0 starts and sets the `recording` flag), opening the audio input
fails, the drain check finds no frames and the session thread finishes —
with the flag still set.  The subsequent chord-satisfied ⌘-right press is
then refused. -/
def c4Trace : List Ev :=
  [.press .alt_l, .press vKey, .press .cmd_l, .openStream 0 false,
   .drainCheck 0, .press .cmd_r]

/-- Interleaving refuting the `no transient file` part of claim C4:
session 0 opens its stream and its callback passes `if recording:`; the
chord is released and re-pressed, spawning session 1 whose stream open
*fails*; session 0's pending append then lands in the shared global
`audio_data`, and session 1's `if audio_data:` drain check (line 140, a
read of that shared global) observes one frame and enters `process_audio`
— the open-failed session runs the downstream pipeline. -/
def c4OverlapTrace : List Ev :=
  [.press .alt_l, .press vKey, .press .cmd_l, .openStream 0 true,
   .cbCheck 0, .release .cmd_l, .press .cmd_l, .openStream 1 false,
   .cbAppend 0, .drainCheck 1]

/-! ### The sequential transcription pipeline

`process_audio` / `transcribe_audio` / `paste_text` (lines 147-232) run
sequentially on the recorder thread.  They are embedded as pure functions
over an environment recording the outcome of each external effect.  A
Python exception in flight is an explicit `Option PErr` value; a value that
is `some _` at a function's return would propagate to the caller. -/

/-- An arbitrary Python exception. -/
inductive PErr where
  | mk (msg : String)
deriving DecidableEq, Repr

/-- Outcome of `sf.write(temp_file, audio_concat, SAMPLE_RATE)`: success,
failure before the file exists, or failure after partially creating it. -/
inductive WriteRes where
  | ok | failNoFile | failPartial
deriving DecidableEq, Repr

/-- Response of the transcription service, in the wire shape of whichever
client branch is in use.  `legacyOk` is a keyed dictionary read with
`response.get("text", "")`; `modernOk` is a typed response whose `text`
field is read directly.  `legacyErr`/`modernErr` are a raised
network/service exception (for the modern branch this also covers a
response without a usable `text` attribute). -/
inductive ServiceResp where
  | legacyOk (fields : List (String × String))
  | legacyErr
  | modernOk (text : String)
  | modernErr
deriving DecidableEq, Repr

/-- Environment of one pipeline run: the start-up `OPENAI_LEGACY` choice,
whether `np.concatenate` succeeds, the `sf.write` outcome, the service
response, whether `os.remove` succeeds, and whether the `osascript` paste
subprocess succeeds. -/
structure PipeEnv where
  legacyApi : Bool
  concatOk : Bool
  write : WriteRes
  service : ServiceResp
  removeOk : Bool
  pasteOk : Bool
deriving DecidableEq, Repr

/-- Observable effects of one pipeline run: whether this session's transient
file currently exists, how many times it was created (`sf.write` reaching
the filesystem) and how many times `os.remove` was invoked on it, the
clipboard contents, and whether the synthetic paste keystroke was issued. -/
structure World where
  fileExists : Bool := false
  fileCreates : Nat := 0
  removeCalls : Nat := 0
  clipboard : Option String := none
  pasteAttempted : Bool := false
deriving DecidableEq, Repr

def World.init : World := {}

/-- The value of `transcribed_text` after the version-dependent service
call (lines 183-206): the legacy branch reads `response.get("text", "")`
and an exception there is caught, leaving `None`; the modern branch reads
`response.text` with the same catch. -/
def transcribedText (legacy : Bool) (resp : ServiceResp) : Option String :=
  if legacy then
    match resp with
    | .legacyOk fields => some ((fields.lookup "text").getD "")
    | _ => none
  else
    match resp with
    | .modernOk t => some t
    | _ => none

/-- Python truthiness of `transcribed_text` as tested by
`if transcribed_text:` — `None` and `""` are falsy. -/
def pyTruthy : Option String → Bool
  | none => false
  | some s => !(s == "")

/-- `paste_text` (lines 223-232): runs the `osascript` paste subprocess; a
`CalledProcessError` is caught and logged inside the function, so the
paste is attempted and nothing propagates either way. -/
def paste_text (_env : PipeEnv) (w : World) : World :=
  { w with pasteAttempted := true }

/-- `transcribe_audio` (lines 179-220): obtain `transcribed_text`; if it is
truthy, copy it to the clipboard and call `paste_text`; otherwise log a
warning.  The surrounding `try/except` means the function never raises. -/
def transcribe_audio (env : PipeEnv) (w : World) : World :=
  let txt := transcribedText env.legacyApi env.service
  if pyTruthy txt then
    paste_text env { w with clipboard := txt }
  else w

/-- `process_audio` (lines 147-176) for a session whose `audio_data` holds
`frames` chunks.  Mirrors the source's `try/except/finally`: the `try`
block concatenates, writes the transient file and calls
`transcribe_audio`; `except Exception` absorbs any pending exception; the
`finally` block removes the file when it exists, absorbing a deletion
failure in its own inner `try/except`.  The second component is the
exception propagating to the caller. -/
def process_audio (env : PipeEnv) (frames : Nat) : World × Option PErr :=
  if frames = 0 then (World.init, none)
  else
    let (w1, _pending) :=
      if env.concatOk = false then (World.init, some (PErr.mk "concat"))
      else
        match env.write with
        | .failNoFile => (World.init, some (PErr.mk "write"))
        | .failPartial =>
            ({ World.init with fileExists := true, fileCreates := 1 },
             some (PErr.mk "write"))
        | .ok =>
            (transcribe_audio env
              { World.init with fileExists := true, fileCreates := 1 },
             none)
    let w2 :=
      if w1.fileExists then
        if env.removeOk then
          { w1 with fileExists := false, removeCalls := w1.removeCalls + 1 }
        else
          { w1 with removeCalls := w1.removeCalls + 1 }
      else w1
    (w2, none)

/-- Environment of one `record_audio` run on its own thread: whether
`sd.InputStream` opened, how many chunks this session's own callback
appended while its loop ran, how many chunks appended by any *overlapping*
session's stream are present in the shared global `audio_data` at this
session's drain check (overlap is reachable, see
`c1_overlap_counterexample`; `foreign = 0` is the single-session case),
and the pipeline environment used if `process_audio` is reached. -/
structure RecEnv where
  openOk : Bool
  delivered : Nat
  foreign : Nat
  penv : PipeEnv
deriving DecidableEq, Repr

/-- The length of the shared global `audio_data` as observed by this
session's `if audio_data:` drain check (line 140): this session's own
appends — none when its stream open failed, since its loop never ran —
plus whatever an overlapping session's stream has contributed. -/
def framesAtDrain (env : RecEnv) : Nat :=
  (if env.openOk then env.delivered else 0) + env.foreign

/-- `record_audio` (lines 110-144), the view of one session's thread:
reset the shared `audio_data`, open the stream (an open failure is caught
at line 137 and this session's own loop never runs), then `if audio_data:`
— a read of the *shared global*, which an overlapping session may have
refilled — either run `process_audio` on it or log a warning and
return. -/
def record_audio (env : RecEnv) : World × Option PErr :=
  if framesAtDrain env > 0 then process_audio env.penv (framesAtDrain env)
  else (World.init, none)

/-! ### The bounded capture loop

`while recording and (time.time() - start_time) < MAX_RECORDING_SECONDS:
time.sleep(0.1)` (lines 129-130), one tick per 0.1 s sleep.  `flag t` is
the value of the `recording` flag the loop reads at tick `t`. -/

/-- `MAX_RECORDING_SECONDS = 30` at ten loop ticks per second. -/
def maxLoopTicks : Nat := 300

/-- The loop body from tick `t` with `fuel` ticks left before the elapsed
time reaches `MAX_RECORDING_SECONDS`: exit when the duration bound is
exhausted or the flag reads false, else sleep one tick and re-check.
Returns the tick at which the loop exits. -/
def loopAux (flag : Nat → Bool) : Nat → Nat → Nat
  | 0, t => t
  | fuel + 1, t => if flag t then loopAux flag fuel (t + 1) else t

/-- The full capture loop: starts at tick 0 with the whole duration budget;
returns the tick at which the session begins draining. -/
def captureLoop (flag : Nat → Bool) : Nat := loopAux flag maxLoopTicks 0

/-! ### Transient file naming

`timestamp = datetime.now().strftime("%Y%m%d_%H%M%S")`,
`temp_file = temp_dir / f"voice_recording_{timestamp}.wav"`
(lines 153-156). -/

/-- A `datetime.now()` value: calendar fields plus the microsecond
component, which `strftime("%Y%m%d_%H%M%S")` discards. -/
structure PyDateTime where
  year : Nat
  month : Nat
  day : Nat
  hour : Nat
  minute : Nat
  second : Nat
  micro : Nat
deriving DecidableEq, Repr

/-- The ASCII digit for `n % 10`-sized values. -/
def digitChar (n : Nat) : Char := Char.ofNat (48 + n)

/-- A field rendered by `strftime` as two zero-padded decimal digits. -/
def pad2 (n : Nat) : List Char :=
  [digitChar (n / 10 % 10), digitChar (n % 10)]

/-- A field rendered by `strftime` as four zero-padded decimal digits. -/
def pad4 (n : Nat) : List Char :=
  [digitChar (n / 1000 % 10), digitChar (n / 100 % 10),
   digitChar (n / 10 % 10), digitChar (n % 10)]

/-- `strftime("%Y%m%d_%H%M%S")`: second resolution, no sub-second field. -/
def strftimeTS (t : PyDateTime) : List Char :=
  pad4 t.year ++ pad2 t.month ++ pad2 t.day ++ ['_']
    ++ pad2 t.hour ++ pad2 t.minute ++ pad2 t.second

/-- Characters of `f"voice_recording_{timestamp}.wav"`. -/
def fileNameChars (t : PyDateTime) : List Char :=
  "voice_recording_".data ++ strftimeTS t ++ ".wav".data

/-- The transient file name generated for a session created at `t`. -/
def tempFileName (t : PyDateTime) : String := String.mk (fileNameChars t)

/-- Calendar fields within the ranges `strftime` renders at fixed width
(every real `datetime` satisfies this). -/
def tsInRange (t : PyDateTime) : Prop :=
  t.year < 10000 ∧ t.month < 100 ∧ t.day < 100 ∧ t.hour < 100
    ∧ t.minute < 100 ∧ t.second < 100

instance (t : PyDateTime) : Decidable (tsInRange t) := by
  unfold tsInRange; infer_instance

/-- The second-resolution part of a timestamp — everything the file name
can depend on. -/
def secondFields (t : PyDateTime) : Nat × Nat × Nat × Nat × Nat × Nat :=
  (t.year, t.month, t.day, t.hour, t.minute, t.second)

/-! ### Guard lemmas and concrete interleavings for the controller claims -/

/-- Claim C1 (amended): a chord-satisfied edge is ignored exactly while the
`recording` flag is set — `on_key_press` spawns no new capture session and
the trigger count is unchanged whenever `recording` is true.  (The original
claim's stronger guarantee — that edges are also ignored while a previous
session's transcription is still in flight — is refuted by
`c1_overlap_counterexample`.) -/
theorem c1_no_start_while_recording_flag (s : Sys) (k : PKey)
    (h : s.recording = true) :
    (Sys.step s (Ev.press k)).threads = s.threads
      ∧ (Sys.step s (Ev.press k)).fires = s.fires := by
  constructor <;> simp [Sys.step, on_key_press, start_recording, h]

/-- Witness for `c1_no_start_while_recording_flag` at a concrete state. -/
theorem c1_no_start_while_recording_flag_witness :
    (Sys.step { recording := true, threads := [{ phase := .looping }] }
        (Ev.press PKey.cmd)).threads
        = [({ phase := .looping } : ThreadSt)]
      ∧ (Sys.step { recording := true, threads := [{ phase := .looping }] }
          (Ev.press PKey.cmd)).fires = 0 :=
  c1_no_start_while_recording_flag
    { recording := true, threads := [{ phase := .looping }] } PKey.cmd rfl

/-- Claim C1 counterexample: after `c1Trace`, session 0 is still
transcribing while the chord-satisfied edge of the final ⌘ press has
started capture session 1 — the recording of session 1 overlaps the
transcription of session 0, and the trigger fired twice. -/
theorem c1_overlap_counterexample :
    (Sys.run (c1Trace.take 10)).threads = [{ phase := .transcribing }]
      ∧ (Sys.run (c1Trace.take 10)).fires = 1
      ∧ (Sys.run c1Trace).threads
          = [{ phase := .transcribing }, { phase := .looping }]
      ∧ (Sys.run c1Trace).fires = 2 := by
  refine ⟨?_, ?_, ?_, ?_⟩ <;> decide

/-- Claim C6 (amended): the chord trigger is edge-guarded only by the
`recording` flag — a press event never re-fires the trigger while the flag
is set.  (That it *can* re-fire within a single maximal all-roles-held
interval, once a redundant modifier release has cleared the flag, is shown
by `c6_double_fire_counterexample`.) -/
theorem c6_no_refire_while_recording_flag (s : Sys) (k : PKey)
    (h : s.recording = true) :
    (Sys.step s (Ev.press k)).fires = s.fires := by
  simp [Sys.step, on_key_press, start_recording, h]

/-- Witness for `c6_no_refire_while_recording_flag` at a concrete state. -/
theorem c6_no_refire_while_recording_flag_witness :
    (Sys.step { recording := true, fires := 3, pressed := [PKey.alt_l, vKey] }
        (Ev.press PKey.alt_l)).fires = 3 :=
  c6_no_refire_while_recording_flag
    { recording := true, fires := 3, pressed := [PKey.alt_l, vKey] }
    PKey.alt_l rfl

/-- Claim C6 counterexample: all three chord roles are concurrently held at
every state from the first fire to the end of `c6Trace`, yet the trigger
fires twice in that single maximal interval — the repeated press event of
the already-held ⌘-right re-fires it. -/
theorem c6_double_fire_counterexample :
    (Sys.run (c6Trace.take 3)).fires = 1
      ∧ rolesHeld (Sys.run (c6Trace.take 3)).pressed = true
      ∧ rolesHeld (Sys.run (c6Trace.take 4)).pressed = true
      ∧ rolesHeld (Sys.run (c6Trace.take 5)).pressed = true
      ∧ rolesHeld (Sys.run c6Trace).pressed = true
      ∧ (Sys.run c6Trace).fires = 2 := by
  refine ⟨?_, ?_, ?_, ?_, ?_, ?_⟩ <;> decide

/-- Claim C5: while recording is in progress, releasing any chord-role key
— any ⌘ variant, any ⌥ variant, or any accepted representation of the
letter key — clears the `recording` flag (the capture session's stop
signal), regardless of which other keys are held. -/
theorem c5_release_any_role_stops (s : Sys) (k : PKey)
    (h : s.recording = true)
    (hk : (cmdKeys.contains k || altKeys.contains k || is_v_key k) = true) :
    (Sys.step s (Ev.release k)).recording = false := by
  simp at hk
  simp [Sys.step, on_key_release, h, hk]

/-- Witness for `c5_release_any_role_stops`: releasing the right ⌥ variant
while ⌘-left, ⌥-right and `v` are held stops the recording. -/
theorem c5_release_any_role_stops_witness :
    (Sys.step
        { recording := true, pressed := [PKey.cmd_l, PKey.alt_r, vKey] }
        (Ev.release PKey.alt_r)).recording = false :=
  c5_release_any_role_stops
    { recording := true, pressed := [PKey.cmd_l, PKey.alt_r, vKey] }
    PKey.alt_r rfl (by decide)

/-- Claim C10: releasing a key that is not in the pressed set leaves the
pressed set unchanged — the `KeyError` that `set.remove` raises for an
absent element is caught (`except KeyError: pass`), so the handler is a
total function at the public interface. -/
theorem c10_release_absent_key_noop (s : Sys) (k : PKey)
    (h : k ∉ s.pressed) :
    (Sys.step s (Ev.release k)).pressed = s.pressed := by
  simp only [Sys.step, on_key_release, removeKey, if_neg h]
  split <;> rfl

/-- Witness for `c10_release_absent_key_noop` at a concrete state. -/
theorem c10_release_absent_key_noop_witness :
    (Sys.step { pressed := [PKey.alt_l] } (Ev.release PKey.cmd_r)).pressed
      = [PKey.alt_l] :=
  c10_release_absent_key_noop { pressed := [PKey.alt_l] } PKey.cmd_r
    (by decide)

/-! ### Pipeline claims -/

/-- `transcribe_audio` never touches the transient file. -/
@[simp] theorem transcribe_audio_fileExists (env : PipeEnv) (w : World) :
    (transcribe_audio env w).fileExists = w.fileExists := by
  simp only [transcribe_audio, paste_text]
  split <;> rfl

/-- `transcribe_audio` never creates the transient file. -/
@[simp] theorem transcribe_audio_fileCreates (env : PipeEnv) (w : World) :
    (transcribe_audio env w).fileCreates = w.fileCreates := by
  simp only [transcribe_audio, paste_text]
  split <;> rfl

/-- `transcribe_audio` never removes the transient file. -/
@[simp] theorem transcribe_audio_removeCalls (env : PipeEnv) (w : World) :
    (transcribe_audio env w).removeCalls = w.removeCalls := by
  simp only [transcribe_audio, paste_text]
  split <;> rfl

/-- Claim C2 evaluated at the failing interleaving `c2Trace`: just before
the final action, session 0's drain check has observed the (shared) frames
buffer at length 1 and session 0 is consuming it in `process_audio`; the
final pending callback append then grows the buffer to length 2.  An
append by the audio callback lands strictly after the first drain-time
observation by the consumer — appends and freeze-on-drain are not mutually
exclusive in this program because `audio_data` is an unsynchronized global
shared across sessions. -/
theorem c2_append_after_drain_observation :
    c2Trace = c2Trace.take 16 ++ [Ev.cbAppend 1]
      ∧ (Sys.run (c2Trace.take 16)).observed = some 1
      ∧ (Sys.run (c2Trace.take 16)).frames = 1
      ∧ (Sys.run (c2Trace.take 16)).threads
          = [{ phase := .transcribing }, { phase := .looping, latch := true }]
      ∧ (Sys.run c2Trace).observed = some 1
      ∧ (Sys.run c2Trace).frames = 2 := by
  refine ⟨?_, ?_, ?_, ?_, ?_, ?_⟩ <;> decide

/-- Claim C3: on every run of `process_audio`, no exception propagates to
the caller (deletion failure included), `os.remove` is invoked exactly as
many times as the transient file was created, and the file is created at
most once — i.e. whenever the run reaches a successful artifact write the
transient file is removed exactly once, on the success, empty-result and
exception paths alike. -/
theorem c3_transient_file_removed_once (env : PipeEnv) (frames : Nat) :
    (process_audio env frames).2 = none
      ∧ (process_audio env frames).1.removeCalls
          = (process_audio env frames).1.fileCreates
      ∧ (process_audio env frames).1.fileCreates ≤ 1 := by
  obtain ⟨leg, cok, wr, svc, rok, pok⟩ := env
  unfold process_audio
  by_cases hf : frames = 0
  · simp [hf, World.init]
  · cases cok <;> cases wr <;> cases rok <;> simp [hf, World.init]

/-- Claim C4 (amended): whenever the frames buffer observed by a
session's drain check is empty, the downstream pipeline is skipped
entirely — no transient file is created, the clipboard is never written,
no paste is issued, and nothing propagates — and in the absence of an
overlapping session writing the shared buffer (`foreign = 0`), an open
failure or zero captured frames guarantees that empty observation.  Two
parts of the original claim fail: the open-failure path leaves the
`recording` flag exactly as it was (set), so the controller does not end
the session in `Idle` and a chord-satisfied edge arriving before the next
chord-role key release is refused rather than honored; and the drain
check reads the shared global `audio_data`, which an overlapping session
can fill, so an open-failed session can run the pipeline after all (both
shown by `c4_original_claim_counterexample`). -/
theorem c4_failed_capture_skips_pipeline :
    (∀ env : RecEnv, framesAtDrain env = 0 →
        (record_audio env).1.fileCreates = 0
          ∧ (record_audio env).1.clipboard = none
          ∧ (record_audio env).1.pasteAttempted = false
          ∧ (record_audio env).2 = none)
      ∧ (∀ env : RecEnv, env.foreign = 0 →
          env.openOk = false ∨ env.delivered = 0 → framesAtDrain env = 0)
      ∧ (∀ (s : Sys) (i : Nat),
          (Sys.step s (Ev.openStream i false)).recording = s.recording) := by
  refine ⟨?_, ?_, ?_⟩
  · intro env h
    unfold record_audio
    simp [h, World.init]
  · intro env hf h
    unfold framesAtDrain
    rcases h with h | h <;> simp [h, hf]
  · intro s i
    rcases hti : s.threads[i]? with _ | t <;> simp [Sys.step, hti]
    split <;> rfl

/-- Witness for `c4_failed_capture_skips_pipeline`: a session whose device
open failed with no overlapping session, and an open-failure step from a
concrete recording state. -/
theorem c4_failed_capture_skips_pipeline_witness :
    ((record_audio
        { openOk := false, delivered := 7, foreign := 0,
          penv := { legacyApi := false, concatOk := true, write := .ok,
                    service := .modernOk "hi", removeOk := true,
                    pasteOk := true } }).1.fileCreates = 0
      ∧ (record_audio
          { openOk := false, delivered := 7, foreign := 0,
            penv := { legacyApi := false, concatOk := true, write := .ok,
                      service := .modernOk "hi", removeOk := true,
                      pasteOk := true } }).1.clipboard = none
      ∧ (record_audio
          { openOk := false, delivered := 7, foreign := 0,
            penv := { legacyApi := false, concatOk := true, write := .ok,
                      service := .modernOk "hi", removeOk := true,
                      pasteOk := true } }).1.pasteAttempted = false
      ∧ (record_audio
          { openOk := false, delivered := 7, foreign := 0,
            penv := { legacyApi := false, concatOk := true, write := .ok,
                      service := .modernOk "hi", removeOk := true,
                      pasteOk := true } }).2 = none)
      ∧ framesAtDrain
          { openOk := false, delivered := 7, foreign := 0,
            penv := { legacyApi := false, concatOk := true, write := .ok,
                      service := .modernOk "hi", removeOk := true,
                      pasteOk := true } } = 0
      ∧ (Sys.step { recording := true, threads := [{ phase := .fresh }] }
          (Ev.openStream 0 false)).recording = true :=
  ⟨c4_failed_capture_skips_pipeline.1
      { openOk := false, delivered := 7, foreign := 0,
        penv := { legacyApi := false, concatOk := true, write := .ok,
                  service := .modernOk "hi", removeOk := true,
                  pasteOk := true } } rfl,
   c4_failed_capture_skips_pipeline.2.1
      { openOk := false, delivered := 7, foreign := 0,
        penv := { legacyApi := false, concatOk := true, write := .ok,
                  service := .modernOk "hi", removeOk := true,
                  pasteOk := true } } rfl (Or.inl rfl),
   c4_failed_capture_skips_pipeline.2.2
      { recording := true, threads := [{ phase := .fresh }] } 0⟩

/-- Claim C4 counterexample, both failing parts of the original claim at
concrete inputs.  `Idle` part (trace `c4Trace`): the open-failed session's
thread has finished, yet the controller is not `Idle` — the `recording`
flag is still set — and the final ⌘-right press, although chord-satisfied
against the held keys, starts nothing: the trigger count and thread list
are unchanged, so the next chord press is *not* honored.  Pipeline part
(trace `c4OverlapTrace`): session 1's stream open fails (its eighth
event), yet session 0's pending append fills the shared buffer and session
1's drain check sends it into `process_audio` — the open-failed session
runs the downstream pipeline rather than skipping it. -/
theorem c4_original_claim_counterexample :
    chordEdge (Sys.run (c4Trace.take 5)).pressed PKey.cmd_r = true
      ∧ (Sys.run (c4Trace.take 5)).threads = [{ phase := .finished }]
      ∧ (Sys.run (c4Trace.take 5)).recording = true
      ∧ (Sys.run c4Trace).recording = true
      ∧ (Sys.run c4Trace).fires = 1
      ∧ (Sys.run c4Trace).threads = [{ phase := .finished }]
      ∧ c4OverlapTrace[7]? = some (Ev.openStream 1 false)
      ∧ (Sys.run c4OverlapTrace).threads
          = [{ phase := .looping }, { phase := .transcribing }]
      ∧ (Sys.run c4OverlapTrace).frames = 1 := by
  refine ⟨?_, ?_, ?_, ?_, ?_, ?_, ?_, ?_, ?_⟩ <;> decide

/-- Claim C7: for every service response, if `transcribed_text` is falsy
(missing or empty) neither the clipboard nor the paste keystroke is
touched; if it is truthy the clipboard receives exactly the transcribed
text and the paste keystroke is attempted; and clipboard-set and
paste-attempt always occur together or not at all. -/
theorem c7_clipboard_and_paste_atomic (env : PipeEnv) :
    (pyTruthy (transcribedText env.legacyApi env.service) = false →
        (transcribe_audio env World.init).clipboard = none
          ∧ (transcribe_audio env World.init).pasteAttempted = false)
      ∧ (pyTruthy (transcribedText env.legacyApi env.service) = true →
        (transcribe_audio env World.init).clipboard
            = transcribedText env.legacyApi env.service
          ∧ (transcribe_audio env World.init).pasteAttempted = true)
      ∧ ((transcribe_audio env World.init).clipboard ≠ none
          ↔ (transcribe_audio env World.init).pasteAttempted = true) := by
  cases h : pyTruthy (transcribedText env.legacyApi env.service) <;>
    cases htxt : transcribedText env.legacyApi env.service <;>
      simp_all [transcribe_audio, paste_text, World.init, pyTruthy]

/-- Witness for `c7_clipboard_and_paste_atomic`: a modern-client response
with text `"hello"` sets the clipboard and attempts the paste; an empty
modern response does neither. -/
theorem c7_clipboard_and_paste_atomic_witness :
    ((transcribe_audio
        { legacyApi := false, concatOk := true, write := .ok,
          service := .modernOk "hello", removeOk := true, pasteOk := true }
        World.init).clipboard = some "hello"
      ∧ (transcribe_audio
          { legacyApi := false, concatOk := true, write := .ok,
            service := .modernOk "hello", removeOk := true, pasteOk := true }
          World.init).pasteAttempted = true)
      ∧ ((transcribe_audio
          { legacyApi := false, concatOk := true, write := .ok,
            service := .modernOk "", removeOk := true, pasteOk := true }
          World.init).clipboard = none
        ∧ (transcribe_audio
            { legacyApi := false, concatOk := true, write := .ok,
              service := .modernOk "", removeOk := true, pasteOk := true }
            World.init).pasteAttempted = false) :=
  ⟨((c7_clipboard_and_paste_atomic
      { legacyApi := false, concatOk := true, write := .ok,
        service := .modernOk "hello", removeOk := true,
        pasteOk := true }).2.1 (by decide)),
   ((c7_clipboard_and_paste_atomic
      { legacyApi := false, concatOk := true, write := .ok,
        service := .modernOk "", removeOk := true,
        pasteOk := true }).1 (by decide))⟩

/-! ### The capture loop claim -/

/-- The loop never exits before its starting tick. -/
theorem loopAux_ge (flag : Nat → Bool) (fuel t : Nat) :
    t ≤ loopAux flag fuel t := by
  induction fuel generalizing t with
  | zero => simp [loopAux]
  | succ n ih =>
      unfold loopAux
      split
      · exact Nat.le_trans (Nat.le_succ t) (ih (t + 1))
      · exact Nat.le_refl t

/-- The loop exits no later than its duration budget. -/
theorem loopAux_le (flag : Nat → Bool) (fuel t : Nat) :
    loopAux flag fuel t ≤ t + fuel := by
  induction fuel generalizing t with
  | zero => simp [loopAux]
  | succ n ih =>
      unfold loopAux
      split
      · have := ih (t + 1)
        omega
      · omega

/-- Every tick strictly before the exit tick read the flag as true. -/
theorem loopAux_flag_before (flag : Nat → Bool) (fuel : Nat) (u : Nat) :
    ∀ t, t ≤ u → u < loopAux flag fuel t → flag u = true := by
  induction fuel with
  | zero =>
      intro t h1 h2
      simp [loopAux] at h2
      omega
  | succ n ih =>
      intro t h1 h2
      unfold loopAux at h2
      cases hf : flag t with
      | false => simp [hf] at h2; omega
      | true =>
          simp only [hf, if_true] at h2
          rcases Nat.eq_or_lt_of_le h1 with rfl | hlt
          · exact hf
          · exact ih (t + 1) hlt h2

/-- If the loop exits before exhausting the duration budget, it is because
it read the flag as false at the exit tick. -/
theorem loopAux_stop (flag : Nat → Bool) (fuel : Nat) :
    ∀ t, loopAux flag fuel t < t + fuel → flag (loopAux flag fuel t) = false := by
  induction fuel with
  | zero =>
      intro t h
      simp [loopAux] at h
  | succ n ih =>
      intro t h
      unfold loopAux at h ⊢
      cases hf : flag t with
      | false => simp [hf]
      | true =>
          simp only [hf, if_true] at h ⊢
          exact ih (t + 1) (by omega)

/-- If the flag stays true throughout, the loop runs its full budget. -/
theorem loopAux_all (flag : Nat → Bool) (fuel : Nat) :
    ∀ t, (∀ u, u < t + fuel → flag u = true) → loopAux flag fuel t = t + fuel := by
  induction fuel with
  | zero => intro t _; simp [loopAux]
  | succ n ih =>
      intro t h
      unfold loopAux
      rw [if_pos (h t (by omega))]
      rw [ih (t + 1) (fun u hu => h u (by omega))]
      omega

/-- Claim C8: the capture loop always terminates, draining at the first
tick at which the `recording` flag reads false, capped at
`MAX_RECORDING_SECONDS` worth of ticks — every earlier tick read the flag
true, an early exit happens exactly on a false flag read, and a chord held
for the full duration drains precisely at the maximum tick. -/
theorem c8_loop_drains_at_stop_or_max (flag : Nat → Bool) :
    captureLoop flag ≤ maxLoopTicks
      ∧ (∀ u, u < captureLoop flag → flag u = true)
      ∧ (captureLoop flag < maxLoopTicks → flag (captureLoop flag) = false)
      ∧ ((∀ u, u < maxLoopTicks → flag u = true)
          → captureLoop flag = maxLoopTicks) := by
  refine ⟨?_, ?_, ?_, ?_⟩
  · simpa [captureLoop] using loopAux_le flag maxLoopTicks 0
  · intro u hu
    exact loopAux_flag_before flag maxLoopTicks u 0 (Nat.zero_le u) hu
  · intro h
    exact loopAux_stop flag maxLoopTicks 0 (by simpa using h)
  · intro h
    simpa [captureLoop] using loopAux_all flag maxLoopTicks 0 (by simpa using h)

/-- Witness for `c8_loop_drains_at_stop_or_max`: a flag held true forever
drains exactly at the maximum tick; a flag released at tick 7 is read true
at tick 3 and false at the (computed) drain tick. -/
theorem c8_loop_drains_at_stop_or_max_witness :
    captureLoop (fun _ => true) = maxLoopTicks
      ∧ (fun u => decide (u < 7)) 3 = true
      ∧ (fun u => decide (u < 7)) (captureLoop (fun u => decide (u < 7)))
          = false :=
  ⟨(c8_loop_drains_at_stop_or_max (fun _ => true)).2.2.2 (fun _ _ => rfl),
   (c8_loop_drains_at_stop_or_max (fun u => decide (u < 7))).2.1 3 (by decide),
   (c8_loop_drains_at_stop_or_max (fun u => decide (u < 7))).2.2.1 (by decide)⟩

/-! ### The transient-file naming claim -/

/-- ASCII digits are distinct. -/
theorem digitChar_inj :
    ∀ a, a < 10 → ∀ b, b < 10 → digitChar a = digitChar b → a = b := by
  decide

/-- The `strftime` rendering determines the second-resolution fields. -/
theorem strftimeTS_inj (t1 t2 : PyDateTime)
    (h1 : tsInRange t1) (h2 : tsInRange t2)
    (h : strftimeTS t1 = strftimeTS t2) :
    secondFields t1 = secondFields t2 := by
  obtain ⟨hy1, hm1, hd1, hh1, hmi1, hs1⟩ := h1
  obtain ⟨hy2, hm2, hd2, hh2, hmi2, hs2⟩ := h2
  simp only [strftimeTS, pad4, pad2, List.cons_append, List.nil_append,
    List.cons.injEq, and_true] at h
  obtain ⟨e1, e2, e3, e4, e5, e6, e7, e8, -, e9, e10, e11, e12, e13, e14⟩ := h
  have q1 := digitChar_inj _ (by omega) _ (by omega) e1
  have q2 := digitChar_inj _ (by omega) _ (by omega) e2
  have q3 := digitChar_inj _ (by omega) _ (by omega) e3
  have q4 := digitChar_inj _ (by omega) _ (by omega) e4
  have q5 := digitChar_inj _ (by omega) _ (by omega) e5
  have q6 := digitChar_inj _ (by omega) _ (by omega) e6
  have q7 := digitChar_inj _ (by omega) _ (by omega) e7
  have q8 := digitChar_inj _ (by omega) _ (by omega) e8
  have q9 := digitChar_inj _ (by omega) _ (by omega) e9
  have q10 := digitChar_inj _ (by omega) _ (by omega) e10
  have q11 := digitChar_inj _ (by omega) _ (by omega) e11
  have q12 := digitChar_inj _ (by omega) _ (by omega) e12
  have q13 := digitChar_inj _ (by omega) _ (by omega) e13
  have q14 := digitChar_inj _ (by omega) _ (by omega) e14
  simp only [secondFields, Prod.mk.injEq]
  refine ⟨by omega, by omega, by omega, by omega, by omega, by omega⟩

/-- Claim C9 (amended): the generated transient file name is determined by
— and only by — the second-resolution timestamp: two sessions get the same
path exactly when their creation times agree down to the second, so names
are distinct only across different wall-clock seconds (the sub-second
component is discarded by the format; `c9_same_second_collision` shows two
distinct instants colliding). -/
theorem c9_name_determined_by_second (t1 t2 : PyDateTime)
    (h1 : tsInRange t1) (h2 : tsInRange t2) :
    tempFileName t1 = tempFileName t2 ↔ secondFields t1 = secondFields t2 := by
  constructor
  · intro h
    have hd : fileNameChars t1 = fileNameChars t2 := congrArg String.data h
    unfold fileNameChars at hd
    rw [List.append_assoc, List.append_assoc] at hd
    have h3 := List.append_cancel_left hd
    have h4 := List.append_cancel_right h3
    exact strftimeTS_inj t1 t2 h1 h2 h4
  · intro h
    simp only [secondFields, Prod.mk.injEq] at h
    obtain ⟨ey, em, ed, eh, emi, es⟩ := h
    unfold tempFileName fileNameChars strftimeTS pad4 pad2
    rw [ey, em, ed, eh, emi, es]

/-- Witness for `c9_name_determined_by_second` at two concrete timestamps
one second apart. -/
theorem c9_name_determined_by_second_witness :
    tempFileName ⟨2025, 10, 12, 9, 30, 0, 0⟩
        = tempFileName ⟨2025, 10, 12, 9, 30, 1, 0⟩
      ↔ secondFields ⟨2025, 10, 12, 9, 30, 0, 0⟩
          = secondFields ⟨2025, 10, 12, 9, 30, 1, 0⟩ :=
  c9_name_determined_by_second ⟨2025, 10, 12, 9, 30, 0, 0⟩
    ⟨2025, 10, 12, 9, 30, 1, 0⟩ (by decide) (by decide)

/-- Claim C9 counterexample: two distinct session creation instants — same
wall-clock second, different microseconds, as rapid successive sessions
produce — receive the *same* transient file path, so one session's
artifact can be overwritten or deleted by the other's. -/
theorem c9_same_second_collision :
    (⟨2025, 1, 2, 3, 4, 5, 0⟩ : PyDateTime) ≠ ⟨2025, 1, 2, 3, 4, 5, 500000⟩
      ∧ tempFileName ⟨2025, 1, 2, 3, 4, 5, 0⟩
          = tempFileName ⟨2025, 1, 2, 3, 4, 5, 500000⟩ := by
  refine ⟨?_, ?_⟩ <;> decide
